import Mathlib

/-!
Shallow embedding of the AutoDock server (`server/index.js`) in Lean 4.

The server is a Node/Express process.  External commands (`docker`, `df`,
`free`, `git`, `curl`) and other nondeterministic inputs (clock strings,
`Math.random` draws, `process.env` variables, `fs.readdir` results) are
modelled as environment inputs; each `execAsync` invocation is an
`ExecResult`: `.ok stdout` when the command resolves, `.error message`
when it rejects.  Mutable process-wide variables (`deploymentStats`,
`systemInfo`, `projects`, scheduled `setTimeout` callbacks) form a
`ServerState`, and the event loop is a step function over events.
Floating-point-derived display strings (memory sizes in GB, load average)
are taken as pre-rendered environment strings, since no claim depends on
their numeric content.
-/

namespace AutoDock

/-- Result of one `execAsync` call: stdout on resolution, the error
message on rejection. -/
abbrev ExecResult := Except String String

instance : DecidableEq ExecResult := fun a b =>
  match a, b with
  | Except.ok x, Except.ok y =>
      if h : x = y then isTrue (by rw [h])
      else isFalse (by intro hc; cases hc; exact h rfl)
  | Except.ok _, Except.error _ => isFalse (by intro hc; cases hc)
  | Except.error _, Except.ok _ => isFalse (by intro hc; cases hc)
  | Except.error x, Except.error y =>
      if h : x = y then isTrue (by rw [h])
      else isFalse (by intro hc; cases hc; exact h rfl)

/-- Whether the first list is an initial segment of the second. -/
def leadsWith : List Char → List Char → Bool
  | [], _ => true
  | _ :: _, [] => false
  | p :: ps, c :: cs => p = c && leadsWith ps cs

/-- Whether `needle` occurs as a contiguous sublist of the haystack. -/
def hasSubList (needle : List Char) : List Char → Bool
  | [] => needle.isEmpty
  | c :: cs => leadsWith needle (c :: cs) || hasSubList needle cs

/-- JavaScript `String.prototype.includes`: `s.includes(sub)` is true iff
`sub` occurs as a substring of `s`. -/
def jsIncludes (s sub : String) : Bool := hasSubList sub.data s.data

/-- Splitting a character list at every occurrence of a separator
character, keeping empty pieces (the accumulator holds the current
piece reversed). -/
def splitOnCharAux (sep : Char) : List Char → List Char → List (List Char)
  | [], acc => [acc.reverse]
  | c :: cs, acc =>
      if c = sep then acc.reverse :: splitOnCharAux sep cs []
      else splitOnCharAux sep cs (c :: acc)

/-- JavaScript `String.prototype.split` with a one-character separator
(the code only splits on `'\n'`, `'\t'` and `'|'`): every occurrence
separates, empty pieces are kept. -/
def jsSplitChar (s : String) (sep : Char) : List String :=
  (splitOnCharAux sep s.data []).map (fun cs => String.mk cs)

/-- JavaScript `a || b` on an optionally-present string `a` (absent or
empty string is falsy, as in `process.env.X || 'default'` and
`ports?.trim() || 'No ports exposed'`). -/
def jsOrString (a : Option String) (b : String) : String :=
  match a with
  | none => b
  | some s => if s = "" then b else s

/-- JavaScript truthiness test `!projectId` for an optionally-present
string field of a JSON body: true when the field is absent or the empty
string. -/
def jsFalsyStr (a : Option String) : Bool :=
  match a with
  | none => true
  | some s => s = ""

/-! ## Data model: group results (`server/index.js` lines 54-217) -/

/-- Return value of `getDockerInfo` (lines 59-64 on success, 66-72 on
failure). -/
structure DockerInfo where
  running : Bool
  containers : List String
  images : List String
  containerCount : Int
  error : Option String
deriving Repr, DecidableEq

/-- Environment for the container/image-listing group: the two
`execAsync` results for `docker ps` and `docker images`. -/
structure DockerEnv where
  ps : ExecResult
  images : ExecResult
deriving Repr, DecidableEq

/-- `getDockerInfo` (lines 54-74).  The two commands run sequentially;
a rejection of either lands in the `catch` block, which returns the
degraded object.  On success, `containers`/`images` hold the split
stdout lines with the header and empty lines filtered out, and
`containerCount` is the raw split length minus 2 (header and trailing
empty line), which can go negative as a JS number, hence `Int`. -/
def getDockerInfo (env : DockerEnv) : DockerInfo :=
  match env.ps with
  | Except.error e =>
      { running := false, error := some e, containers := [], images := [],
        containerCount := 0 }
  | Except.ok containersOut =>
    match env.images with
    | Except.error e =>
        { running := false, error := some e, containers := [], images := [],
          containerCount := 0 }
    | Except.ok imagesOut =>
        { running := true
          containers := (jsSplitChar containersOut '\n').filter
            (fun line => line != "" && !(jsIncludes line "NAMES"))
          images := (jsSplitChar imagesOut '\n').filter
            (fun line => line != "" && !(jsIncludes line "REPOSITORY"))
          containerCount := ((jsSplitChar containersOut '\n').length : Int) - 2
          error := none }

/-- Return value of `getSystemMetrics` (lines 81-92 on success, 94-99 on
failure).  Fields absent on the failure path are `Option`s.  The
`loadAverage` float array and the GB-formatted memory strings are kept
as opaque environment-provided strings. -/
structure SystemMetrics where
  uptime : Nat
  hostname : String
  platform : String
  architecture : Option String
  cpuCount : Option Nat
  totalMemory : Option String
  freeMemory : Option String
  loadAverage : Option String
  diskUsage : Option String
  memoryInfo : Option String
  error : Option String
deriving Repr, DecidableEq

/-- Environment for the host-metrics group: the `df -h / | tail -1` and
`free -h` results plus the `os` module readings taken during the call.
`os.uptime()` is modelled as a whole number of seconds (the handler
floors it anyway); `totalMemGB`/`freeMemGB` are the `toFixed(2)`
renderings of the float arithmetic, and `loadAvg` the rendering of
`os.loadavg()`. -/
structure MetricsEnv where
  df : ExecResult
  free : ExecResult
  osUptime : Nat
  hostname : String
  platform : String
  architecture : String
  cpuCount : Nat
  totalMemGB : String
  freeMemGB : String
  loadAvg : String
deriving Repr, DecidableEq

/-- `getSystemMetrics` (lines 76-101).  A rejection of either command
lands in the `catch` block, which still reports `uptime`, `hostname`
and `platform` alongside the error message. -/
def getSystemMetrics (env : MetricsEnv) : SystemMetrics :=
  match env.df with
  | Except.error e =>
      { uptime := env.osUptime, hostname := env.hostname,
        platform := env.platform, error := some e,
        architecture := none, cpuCount := none, totalMemory := none,
        freeMemory := none, loadAverage := none, diskUsage := none,
        memoryInfo := none }
  | Except.ok diskUsage =>
    match env.free with
    | Except.error e =>
        { uptime := env.osUptime, hostname := env.hostname,
          platform := env.platform, error := some e,
          architecture := none, cpuCount := none, totalMemory := none,
          freeMemory := none, loadAverage := none, diskUsage := none,
          memoryInfo := none }
    | Except.ok memInfo =>
        { uptime := env.osUptime, hostname := env.hostname,
          platform := env.platform, architecture := some env.architecture,
          cpuCount := some env.cpuCount,
          totalMemory := some (env.totalMemGB ++ " GB"),
          freeMemory := some (env.freeMemGB ++ " GB"),
          loadAverage := some env.loadAvg,
          diskUsage := some diskUsage.trim,
          memoryInfo := some memInfo, error := none }

/-- Return value of `checkGitHubActions` (lines 182-186; the 188-193
catch branch is unreachable, see `checkGitHubActions`). -/
structure GitHubInfo where
  active : Bool
  workflows : List String
  count : Nat
  error : Option String
deriving Repr, DecidableEq

/-- `checkGitHubActions` (lines 176-195).  The `fs.readdir` rejection is
swallowed by the inline `.catch(() => [])`, so a failed directory
listing yields `files = []` and the success return runs with no error
field; the outer `catch` (which would attach `error`) can only fire on
an exception outside `readdir`, and `path.join` on constant strings
never throws, so it is dead code. -/
def checkGitHubActions (readdirResult : Except String (List String)) :
    GitHubInfo :=
  let files := match readdirResult with
    | Except.ok fs => fs
    | Except.error _ => []
  { active := decide (0 < files.length), workflows := files,
    count := files.length, error := none }

/-- Return value of `checkAWSConnection` (lines 203-208 on success,
210-215 on failure; `region` is absent on the failure path). -/
structure AWSInfo where
  connected : Bool
  publicIP : String
  instanceId : String
  region : Option String
  error : Option String
deriving Repr, DecidableEq

/-- Environment for the cloud-metadata group: the two `curl` command
results and the `AWS_REGION` environment variable. -/
structure AWSEnv where
  ipOut : ExecResult
  metaOut : ExecResult
  regionEnv : Option String
deriving Repr, DecidableEq

/-- `checkAWSConnection` (lines 197-217).  Both shell commands carry
`|| echo ...` fallbacks, so rejection is rare but possible (e.g. spawn
failure); either rejection lands in the `catch` block. -/
def checkAWSConnection (env : AWSEnv) : AWSInfo :=
  match env.ipOut with
  | Except.error e =>
      { connected := false, error := some e, publicIP := "Unknown",
        instanceId := "Unknown", region := none }
  | Except.ok publicIP =>
    match env.metaOut with
    | Except.error e =>
        { connected := false, error := some e, publicIP := "Unknown",
          instanceId := "Unknown", region := none }
    | Except.ok instanceMetadata =>
        { connected := !(jsIncludes instanceMetadata "Not on AWS")
          publicIP := publicIP.trim
          instanceId := instanceMetadata.trim
          region := some (jsOrString env.regionEnv "us-east-1")
          error := none }

/-! ## Data model: deployment stats and projects -/

/-- `deploymentStats` (lines 17-21): process-lifetime counters. -/
structure DeploymentStats where
  total : Nat
  successful : Nat
  failed : Nat
deriving Repr, DecidableEq

/-- Nested `gitInfo` object of the git-repo project entry (lines
126-131).  The fields come from destructuring `gitLog.split('|')`, so
each may be absent when the log line has fewer parts. -/
structure GitCommitInfo where
  lastCommit : Option String
  author : Option String
  message : Option String
  date : Option String
deriving Repr, DecidableEq

/-- Nested `containerInfo` object of a container-derived project entry
(lines 146-149). -/
structure ContainerMeta where
  status : String
  ports : String
deriving Repr, DecidableEq

/-- A project entry as produced by `getGitProjects` (lines 119-132,
139-150, 154-161, 164-172).  `gitInfo`, `containerInfo` and `error` are
present only on some entry kinds. -/
structure Project where
  id : Nat
  name : String
  status : String
  lastDeploy : String
  deployments : Nat
  branch : String
  gitInfo : Option GitCommitInfo
  containerInfo : Option ContainerMeta
  error : Option String
deriving Repr, DecidableEq

/-- Environment for one `getGitProjects` call: the three git command
results, a fresh pair of docker command results (the function calls
`getDockerInfo()` itself, line 111), the clock rendering used for the
`lastDeploy` ISO timestamps, and the `Math.floor(Math.random()*50)`
draw for each container index (line 144), modelled as an
environment-provided value below 50. -/
structure GitEnv where
  gitStatus : ExecResult
  gitBranch : ExecResult
  gitLog : ExecResult
  docker : DockerEnv
  nowISO : String
  randFifty : Nat → Fin 50

/-- The singleton returned from the `catch` block of `getGitProjects`
(lines 164-172). -/
def errorProject (nowISO : String) (stats : DeploymentStats)
    (msg : String) : Project :=
  { id := 1, name := "DockerHub Auto-Deploy System", status := "unknown",
    lastDeploy := nowISO, deployments := stats.total, branch := "main",
    gitInfo := none, containerInfo := none, error := some msg }

/-- The fallback singleton returned when `realProjects` is empty (lines
154-161). -/
def fallbackProject (nowISO : String) (stats : DeploymentStats) : Project :=
  { id := 1, name := "DockerHub Auto-Deploy System", status := "running",
    lastDeploy := nowISO, deployments := stats.total, branch := "main",
    gitInfo := none, containerInfo := none, error := none }

/-- The `forEach` over `dockerInfo.containers` (lines 136-152), carrying
the running index.  A kept line (`name` truthy and not `'NAMES'`) whose
split lacks a second field makes `status.includes('Up')` throw a
`TypeError` on `undefined`, which propagates out of the `forEach` into
the outer `catch`; this is the `Except.error` case.  Skipped lines still
advance the index, so kept entries keep their raw positional id
`index + 2`. -/
def containerProjects (nowISO : String) (randFifty : Nat → Fin 50) :
    List String → Nat → Except String (List Project)
  | [], _ => Except.ok []
  | line :: rest, idx =>
    let parts := jsSplitChar line '\t'
    let name := parts.headD ""
    if name != "" && name != "NAMES" then
      match parts[1]? with
      | none =>
          Except.error "Cannot read properties of undefined (reading 'includes')"
      | some status =>
        match containerProjects nowISO randFifty rest (idx + 1) with
        | Except.error e => Except.error e
        | Except.ok ps =>
            Except.ok
              ({ id := idx + 2, name := name.trim
                 status := if jsIncludes status "Up" then "deployed" else "stopped"
                 lastDeploy := nowISO
                 deployments := (randFifty idx).val + 1
                 branch := "main", gitInfo := none
                 containerInfo := some
                   { status := status.trim
                     ports := jsOrString (parts[2]?.map String.trim)
                       "No ports exposed" }
                 error := none } :: ps)
    else containerProjects nowISO randFifty rest (idx + 1)

/-- The git-repo project entry (lines 119-132), built when `gitStatus`
does not contain `'Not a git repo'`. -/
def gitRepoProject (e : GitEnv) (stats : DeploymentStats)
    (gitBranch gitLog : String) (dockerRunning : Bool) : Project :=
  let parts := jsSplitChar gitLog '|'
  { id := 1, name := "DockerHub Auto-Deploy System"
    status := if dockerRunning then "deployed" else "stopped"
    lastDeploy := e.nowISO, deployments := stats.total
    branch := gitBranch.trim
    gitInfo := some
      { lastCommit := parts[0]?.map (fun h => h.take 8)
        author := parts[1]?, date := parts[2]?, message := parts[3]? }
    containerInfo := none, error := none }

/-- `getGitProjects` (lines 103-174).  The three git commands run
sequentially; a rejection of any of them (or the `TypeError` from a
malformed container line) lands in the `catch` block.  Otherwise the
git entry (when in a repo) and the container-derived entries are
collected, with the fallback singleton substituted when the collected
list is empty. -/
def getGitProjects (e : GitEnv) (stats : DeploymentStats) : List Project :=
  match e.gitStatus with
  | Except.error msg => [errorProject e.nowISO stats msg]
  | Except.ok gitStatus =>
  match e.gitBranch with
  | Except.error msg => [errorProject e.nowISO stats msg]
  | Except.ok gitBranch =>
  match e.gitLog with
  | Except.error msg => [errorProject e.nowISO stats msg]
  | Except.ok gitLog =>
    let dockerInfo := getDockerInfo e.docker
    let base : List Project :=
      if !(jsIncludes gitStatus "Not a git repo") then
        [gitRepoProject e stats gitBranch gitLog dockerInfo.running]
      else []
    match containerProjects e.nowISO e.randFifty dockerInfo.containers 0 with
    | Except.error msg => [errorProject e.nowISO stats msg]
    | Except.ok cps =>
      let realProjects := base ++ cps
      if 0 < realProjects.length then realProjects
      else [fallbackProject e.nowISO stats]

/-! ## Snapshot and server state (`server/index.js` lines 219-249) -/

/-- The object assigned to `systemInfo` (lines 229-235). -/
structure Snapshot where
  docker : DockerInfo
  system : SystemMetrics
  github : GitHubInfo
  aws : AWSInfo
  lastUpdated : String
deriving Repr, DecidableEq

/-- Environment for one refresh cycle: the inputs of the four collection
groups, the `.github/workflows` readdir result, the clock rendering for
`lastUpdated`, and a git environment for the trailing
`getGitProjects()` call (line 237). -/
structure Env where
  docker : DockerEnv
  metrics : MetricsEnv
  readdirWorkflows : Except String (List String)
  aws : AWSEnv
  git : GitEnv
  nowISO : String

/-- The snapshot built by `initializeSystemData` (lines 222-235): the
four group results, gathered by `Promise.all`, merged with the
timestamp.  Each group function is total (its failures are caught
internally), so the merge always happens and each field depends only on
its own group's inputs. -/
def buildSnapshot (e : Env) : Snapshot :=
  { docker := getDockerInfo e.docker
    system := getSystemMetrics e.metrics
    github := checkGitHubActions e.readdirWorkflows
    aws := checkAWSConnection e.aws
    lastUpdated := e.nowISO }

/-- The mutable process-wide state: the three module-level variables
(`deploymentStats`, `systemInfo`, `projects`) plus the queue of
`setTimeout` callbacks scheduled by the deploy handler, each carrying
the success/failure outcome drawn at schedule time (line 323).
`systemInfo` starts as the empty object `{}` (line 24), modelled as
`none`. -/
structure ServerState where
  stats : DeploymentStats
  systemInfo : Option Snapshot
  projects : List Project
  pending : List Bool

/-- The state at process start (lines 17-24): zero counters, empty
snapshot, empty project list, nothing scheduled. -/
def initialState : ServerState :=
  { stats := { total := 0, successful := 0, failed := 0 }
    systemInfo := none, projects := [], pending := [] }

/-- `initializeSystemData` (lines 220-243) as a state update: one single
assignment replaces `systemInfo` wholesale after all four groups have
resolved, then `projects` is reassigned from `getGitProjects`. -/
def initializeSystemData (e : Env) (s : ServerState) : ServerState :=
  { s with systemInfo := some (buildSnapshot e)
           projects := getGitProjects e.git s.stats }

/-! ## HTTP handlers (`server/index.js` lines 261-374) -/

/-- Response body of `GET /api/health` (lines 263-272), together with
the HTTP status set by `res.status(200)`. -/
structure HealthResponse where
  httpStatus : Nat
  status : String
  timestamp : String
  uptime : Nat
  systemUptime : Nat
  environment : String
  version : String
  hostname : String
  platform : String
deriving Repr, DecidableEq

/-- `GET /api/health` (lines 261-273).  It awaits a fresh
`getSystemMetrics()` and always replies 200; `process.uptime()` and
`NODE_ENV` are environment inputs.  `Math.floor` on the whole-second
`uptime` model is the identity. -/
def healthHandler (me : MetricsEnv) (processUptime : Nat)
    (nodeEnv : Option String) (nowISO : String) : HealthResponse :=
  let systemMetrics := getSystemMetrics me
  { httpStatus := 200, status := "OK", timestamp := nowISO
    uptime := processUptime, systemUptime := systemMetrics.uptime
    environment := jsOrString nodeEnv "development", version := "1.0.0"
    hostname := systemMetrics.hostname, platform := systemMetrics.platform }

/-- Response body of `GET /api/status` (lines 277-287); the
`systemHealth` sub-object is flattened into three fields. -/
structure StatusResponse where
  message : String
  version : String
  timestamp : String
  deployments : DeploymentStats
  healthDocker : Bool
  healthGithub : Bool
  healthAws : Bool
deriving Repr, DecidableEq

/-- `GET /api/status` (lines 276-288).  Each health flag reads an
optional snapshot field with `?.` and defaults to `false` via `||`
when `systemInfo` is still the empty object. -/
def statusHandler (s : ServerState) (nowISO : String) : StatusResponse :=
  { message := "DockerHub Auto-Deploy API is running!", version := "1.0.0"
    timestamp := nowISO, deployments := s.stats
    healthDocker := (s.systemInfo.map (fun si => si.docker.running)).getD false
    healthGithub := (s.systemInfo.map (fun si => si.github.active)).getD false
    healthAws := (s.systemInfo.map (fun si => si.aws.connected)).getD false }

/-- `GET /api/system` (lines 302-304): serves the raw `systemInfo`
variable; `none` stands for the initial empty object. -/
def systemHandler (s : ServerState) : Option Snapshot := s.systemInfo

/-- Response of `POST /api/deploy`: HTTP status plus the union of the
400 error body (line 310) and the success body (lines 333-341). -/
structure DeployResponse where
  httpStatus : Nat
  error : Option String
  success : Option Bool
  message : Option String
  deploymentId : Option String
  projectId : Option String
  branch : Option String
  timestamp : Option String
  estimatedTime : Option String
deriving Repr, DecidableEq

/-- Result of one `POST /api/deploy` call: the response sent, the
updated `deploymentStats`, and the outcomes scheduled via `setTimeout`
(at most one). -/
structure DeployStep where
  resp : DeployResponse
  stats : DeploymentStats
  scheduled : List Bool
deriving Repr, DecidableEq

/-- `POST /api/deploy` (lines 306-350).  `projectId` and `branch` are
optional JSON body fields; the guard is JS truthiness (`!projectId`),
so an absent or empty `projectId` yields the 400 reply with the
counters untouched.  Otherwise `total` is incremented synchronously,
one delayed outcome is scheduled with the success bit drawn from
`Math.random() > 0.1` (an environment input here), and the success
response is sent immediately; nothing in the response depends on the
drawn outcome.  The `catch` branch (lines 342-349) is unreachable:
the try body only performs arithmetic, `setTimeout` registration and
`res.json`. -/
def deployHandler (projectId branch : Option String) (nowMs : Nat)
    (succ : Bool) (nowISO : String) (stats : DeploymentStats) : DeployStep :=
  if jsFalsyStr projectId then
    { resp := { httpStatus := 400, error := some "Project ID is required"
                success := none, message := none, deploymentId := none
                projectId := none, branch := none, timestamp := none
                estimatedTime := none }
      stats := stats, scheduled := [] }
  else
    let pid := projectId.getD ""
    let deploymentId := "deploy_" ++ toString nowMs ++ "_" ++ pid
    { resp := { httpStatus := 200, error := none, success := some true
                message := some ("Deployment initiated for project " ++ pid)
                deploymentId := some deploymentId, projectId := some pid
                branch := some (branch.getD "main"), timestamp := some nowISO
                estimatedTime := some "3-5 minutes" }
      stats := { stats with total := stats.total + 1 }
      scheduled := [succ] }

/-- Response of `GET /api/deployments/:id` (lines 355-373). -/
structure DeploymentLogResponse where
  httpStatus : Nat
  deploymentId : String
  status : String
  logs : List String
  duration : String
  timestamp : String
  hostnameInfo : Option String
  uptimeInfo : Option Nat
deriving Repr, DecidableEq

/-- The seven hardcoded log lines (lines 358-366); each line calls
`new Date().toLocaleTimeString()` separately, so the rendering is a
per-line environment input. -/
def deploymentLogLines (localeTime : Nat → String) : List String :=
  [ "[" ++ localeTime 0 ++ "] Starting deployment..."
  , "[" ++ localeTime 1 ++ "] Checking system resources..."
  , "[" ++ localeTime 2 ++ "] Building Docker image..."
  , "[" ++ localeTime 3 ++ "] Pushing to DockerHub..."
  , "[" ++ localeTime 4 ++ "] Deploying to EC2..."
  , "[" ++ localeTime 5 ++ "] Running health checks..."
  , "[" ++ localeTime 6 ++ "] Deployment successful!" ]

/-- `GET /api/deployments/:id` (lines 352-374): echoes the path id into
a fixed-shape transcript without consulting any stored deployment
state; the only state read is the optional `systemInfo.system`
sub-object. -/
def deploymentByIdHandler (id : String) (localeTime : Nat → String)
    (nowISO : String) (s : ServerState) : DeploymentLogResponse :=
  { httpStatus := 200, deploymentId := id, status := "completed"
    logs := deploymentLogLines localeTime, duration := "4m 32s"
    timestamp := nowISO
    hostnameInfo := s.systemInfo.map (fun si => si.system.hostname)
    uptimeInfo := s.systemInfo.map (fun si => si.system.uptime) }

/-! ## Event-loop semantics

The process is single-threaded: handler bodies and timer callbacks run
to completion between interleaving points.  The state-mutating events
are: a refresh cycle committing its results (startup or a 30s tick), a
deploy request, a scheduled deploy outcome firing, and a
`GET /api/projects` request reassigning `projects`.  Read-only handlers
do not change state and need no event. -/

inductive Event where
  | refresh (e : Env)
  | deploy (projectId branch : Option String) (nowMs : Nat) (succ : Bool)
      (nowISO : String)
  | fireTimeout
  | getProjects (ge : GitEnv)

/-- Whether an event is a refresh-cycle commit. -/
def Event.isRefresh : Event → Bool
  | Event.refresh _ => true
  | _ => false

/-- One event-loop step. -/
def step (s : ServerState) : Event → ServerState
  | Event.refresh e => initializeSystemData e s
  | Event.deploy pid br nowMs succ nowISO =>
      let d := deployHandler pid br nowMs succ nowISO s.stats
      { s with stats := d.stats, pending := s.pending ++ d.scheduled }
  | Event.fireTimeout =>
      match s.pending with
      | [] => s
      | b :: rest =>
          { s with pending := rest
                   stats := if b then
                       { s.stats with successful := s.stats.successful + 1 }
                     else { s.stats with failed := s.stats.failed + 1 } }
  | Event.getProjects ge =>
      { s with projects := getGitProjects ge s.stats }

/-- The state reached from a given state by a list of events. -/
def runFrom (s : ServerState) (evs : List Event) : ServerState :=
  evs.foldl step s

/-- The state reached from process start by a list of events. -/
def run (evs : List Event) : ServerState := runFrom initialState evs

/-- Per-cycle accounting: settled outcomes plus still-pending timeouts
equal attempted deployments. -/
def StatsInv (s : ServerState) : Prop :=
  s.stats.successful + s.stats.failed + s.pending.length = s.stats.total

/-- A concrete project-deriver environment: the working directory is
not a git repository and `docker ps` lists exactly one container. -/
def soloContainerGitEnv : GitEnv :=
  { gitStatus := Except.ok "Not a git repo\n"
    gitBranch := Except.ok "main\n"
    gitLog := Except.ok "No commits\n"
    docker :=
      { ps := Except.ok "NAMES\tSTATUS\tPORTS\nweb\tUp 2 hours\t80/tcp\n"
        images := Except.ok "REPOSITORY\tTAG\tCREATED AT\n" }
    nowISO := "2025-01-01T00:00:00.000Z"
    randFifty := fun _ => ⟨6, by decide⟩ }

/-- A refresh environment with the container-listing command replaced
by a failure. -/
def dockerFailEnv (e : Env) (msg : String) : Env :=
  { e with docker := { ps := Except.error msg, images := e.docker.images } }

/-! ## Helper lemmas -/

/-- A predicate preserved by every step holds after any event list. -/
theorem runFrom_preserves (P : ServerState → Prop)
    (hstep : ∀ s ev, P s → P (step s ev)) :
    ∀ (evs : List Event) (s : ServerState), P s → P (runFrom s evs)
  | [], _, h => h
  | ev :: evs, s, h =>
      runFrom_preserves P hstep evs (step s ev) (hstep s ev h)

/-- The deploy handler either leaves the stats untouched and schedules
nothing, or bumps `total` by one and schedules exactly one outcome. -/
theorem deployHandler_stats_cases (pid br : Option String) (nowMs : Nat)
    (succ : Bool) (iso : String) (stats : DeploymentStats) :
    (deployHandler pid br nowMs succ iso stats).stats = stats ∧
      (deployHandler pid br nowMs succ iso stats).scheduled = [] ∨
    (deployHandler pid br nowMs succ iso stats).stats =
        { stats with total := stats.total + 1 } ∧
      (deployHandler pid br nowMs succ iso stats).scheduled = [succ] := by
  unfold deployHandler
  by_cases h : jsFalsyStr pid = true
  · left; rw [if_pos h]; exact ⟨rfl, rfl⟩
  · right; rw [if_neg h]; exact ⟨rfl, rfl⟩

theorem step_preserves_statsInv (s : ServerState) (ev : Event)
    (h : StatsInv s) : StatsInv (step s ev) := by
  cases ev with
  | refresh e => exact h
  | deploy pid br nowMs succ iso =>
      unfold StatsInv step
      rcases deployHandler_stats_cases pid br nowMs succ iso s.stats with
        ⟨h1, h2⟩ | ⟨h1, h2⟩ <;>
        simp only [h1, h2, List.length_append] <;>
        unfold StatsInv at h <;> simp <;> omega
  | fireTimeout =>
      unfold StatsInv step
      unfold StatsInv at h
      cases hp : s.pending with
      | nil => simpa using h
      | cons b rest =>
          rw [hp] at h
          cases b <;> simp at h ⊢ <;> omega
  | getProjects ge => exact h

/-- Non-refresh events never touch `systemInfo`. -/
theorem step_systemInfo_of_not_refresh (s : ServerState) (ev : Event)
    (h : ev.isRefresh = false) : (step s ev).systemInfo = s.systemInfo := by
  cases ev with
  | refresh e => simp [Event.isRefresh] at h
  | deploy pid br nowMs succ iso => rfl
  | fireTimeout =>
      unfold step
      cases s.pending <;> rfl
  | getProjects ge => rfl

/-- No event decreases any of the three counters. -/
theorem step_stats_monotone (s : ServerState) (ev : Event) :
    s.stats.total ≤ (step s ev).stats.total ∧
    s.stats.successful ≤ (step s ev).stats.successful ∧
    s.stats.failed ≤ (step s ev).stats.failed := by
  cases ev with
  | refresh e => exact ⟨le_refl _, le_refl _, le_refl _⟩
  | deploy pid br nowMs succ iso =>
      have hst : (step s (Event.deploy pid br nowMs succ iso)).stats
          = (deployHandler pid br nowMs succ iso s.stats).stats := rfl
      rw [hst]
      rcases deployHandler_stats_cases pid br nowMs succ iso s.stats with
        ⟨h1, _⟩ | ⟨h1, _⟩ <;> rw [h1]
      · exact ⟨le_refl _, le_refl _, le_refl _⟩
      · exact ⟨Nat.le_succ _, le_refl _, le_refl _⟩
  | fireTimeout =>
      unfold step
      cases s.pending with
      | nil => exact ⟨le_refl _, le_refl _, le_refl _⟩
      | cons b rest => cases b <;> simp
  | getProjects ge => exact ⟨le_refl _, le_refl _, le_refl _⟩

/-! ## Claim theorems -/

/-- C1: in every reachable state, the published snapshot is either the
initial empty object or the complete output `buildSnapshot e` of one
single refresh cycle's environment — `systemInfo` is only ever
overwritten by the one assignment made after all four groups resolve,
so no observable snapshot mixes fields of two cycles. -/
theorem snapshot_single_cycle (evs : List Event) :
    (run evs).systemInfo = none ∨
    ∃ e : Env, (run evs).systemInfo = some (buildSnapshot e) := by
  refine runFrom_preserves
    (fun s => s.systemInfo = none ∨
      ∃ e : Env, s.systemInfo = some (buildSnapshot e))
    ?_ evs initialState (Or.inl rfl)
  intro s ev h
  cases hev : ev.isRefresh with
  | true =>
      cases ev with
      | refresh e => exact Or.inr ⟨e, rfl⟩
      | deploy pid br nowMs succ iso => simp [Event.isRefresh] at hev
      | fireTimeout => simp [Event.isRefresh] at hev
      | getProjects ge => simp [Event.isRefresh] at hev
  | false => rw [step_systemInfo_of_not_refresh s ev hev]; exact h

/-- C9: at every reachable state, `successful + failed ≤ total`; a
deploy bumps `total` synchronously and schedules at most one later
outcome, and no event ever decrements a counter. -/
theorem stats_never_exceed_total (evs : List Event) :
    (run evs).stats.successful + (run evs).stats.failed
        ≤ (run evs).stats.total ∧
    (∀ (s : ServerState) (ev : Event),
        s.stats.total ≤ (step s ev).stats.total ∧
        s.stats.successful ≤ (step s ev).stats.successful ∧
        s.stats.failed ≤ (step s ev).stats.failed) := by
  constructor
  · have hinv : StatsInv (run evs) :=
      runFrom_preserves StatsInv step_preserves_statsInv evs initialState rfl
    unfold StatsInv at hinv
    omega
  · exact step_stats_monotone

/-- C2: a deploy request without a `projectId` is answered with HTTP 400
and the error message, schedules no delayed outcome, and leaves
`deploymentStats` (in particular `total`) unchanged. -/
theorem deploy_missing_projectId_rejected (br : Option String)
    (nowMs : Nat) (succ : Bool) (iso : String) (stats : DeploymentStats)
    (s : ServerState) :
    (deployHandler none br nowMs succ iso stats).resp.httpStatus = 400 ∧
    (deployHandler none br nowMs succ iso stats).resp.error
        = some "Project ID is required" ∧
    (deployHandler none br nowMs succ iso stats).stats = stats ∧
    (deployHandler none br nowMs succ iso stats).scheduled = [] ∧
    (step s (Event.deploy none br nowMs succ iso)).stats = s.stats ∧
    (step s (Event.deploy none br nowMs succ iso)).pending = s.pending := by
  refine ⟨rfl, rfl, rfl, rfl, rfl, ?_⟩
  show s.pending ++ [] = s.pending
  exact List.append_nil _

/-- C3 counterexample: a body that does contain a `projectId` — the
empty string, which is JS-falsy — is rejected with 400 and does not
increment `total`, so "contains a projectId" alone does not guarantee
the initiated response. -/
theorem deploy_empty_projectId_cex :
    (deployHandler (some "") none 0 true "t"
        { total := 0, successful := 0, failed := 0 }).resp.httpStatus = 400 ∧
    (deployHandler (some "") none 0 true "t"
        { total := 0, successful := 0, failed := 0 }).stats.total = 0 := by
  exact ⟨rfl, rfl⟩

/-- C3 (amended): for every deploy request whose `projectId` is a
non-empty string, the handler increments `total` exactly once
synchronously, leaves the other counters alone, and immediately returns
the success-shaped response with
`deploymentId = deploy_<epoch>_<projectId>`; the response is identical
whatever the delayed outcome draw is. -/
theorem deploy_nonempty_projectId_initiates (pid : String) (h : pid ≠ "")
    (br : Option String) (nowMs : Nat) (succ succ2 : Bool) (iso : String)
    (stats : DeploymentStats) :
    (deployHandler (some pid) br nowMs succ iso stats).resp.httpStatus = 200 ∧
    (deployHandler (some pid) br nowMs succ iso stats).resp.success
        = some true ∧
    (deployHandler (some pid) br nowMs succ iso stats).resp.deploymentId
        = some ("deploy_" ++ toString nowMs ++ "_" ++ pid) ∧
    (deployHandler (some pid) br nowMs succ iso stats).stats.total
        = stats.total + 1 ∧
    (deployHandler (some pid) br nowMs succ iso stats).stats.successful
        = stats.successful ∧
    (deployHandler (some pid) br nowMs succ iso stats).stats.failed
        = stats.failed ∧
    (deployHandler (some pid) br nowMs succ iso stats).resp
        = (deployHandler (some pid) br nowMs succ2 iso stats).resp := by
  have hfalsy : jsFalsyStr (some pid) = false := by
    simp [jsFalsyStr, h]
  unfold deployHandler
  rw [hfalsy]
  simp

/-- Witness for C3 (amended) at `projectId := "myapp"`. -/
theorem deploy_nonempty_projectId_initiates_witness :
    ("myapp" : String) ≠ "" ∧
    ((deployHandler (some "myapp") none 5 true "t"
        { total := 0, successful := 0, failed := 0 }).resp.httpStatus = 200 ∧
    (deployHandler (some "myapp") none 5 true "t"
        { total := 0, successful := 0, failed := 0 }).resp.success
        = some true ∧
    (deployHandler (some "myapp") none 5 true "t"
        { total := 0, successful := 0, failed := 0 }).resp.deploymentId
        = some ("deploy_" ++ toString 5 ++ "_" ++ "myapp") ∧
    (deployHandler (some "myapp") none 5 true "t"
        { total := 0, successful := 0, failed := 0 }).stats.total = 0 + 1 ∧
    (deployHandler (some "myapp") none 5 true "t"
        { total := 0, successful := 0, failed := 0 }).stats.successful = 0 ∧
    (deployHandler (some "myapp") none 5 true "t"
        { total := 0, successful := 0, failed := 0 }).stats.failed = 0 ∧
    (deployHandler (some "myapp") none 5 true "t"
        { total := 0, successful := 0, failed := 0 }).resp
        = (deployHandler (some "myapp") none 5 false "t"
        { total := 0, successful := 0, failed := 0 }).resp) :=
  ⟨by decide, deploy_nonempty_projectId_initiates "myapp" (by decide) none 5
    true false "t" { total := 0, successful := 0, failed := 0 }⟩

/-- C5: `GET /api/health` answers HTTP 200 with the full body for every
metrics environment — including ones where `df` or `free` fail — since
`getSystemMetrics` reports `uptime`, `hostname` and `platform` on both
its paths. -/
theorem health_always_200 (me : MetricsEnv) (processUptime : Nat)
    (nodeEnv : Option String) (iso : String) :
    (healthHandler me processUptime nodeEnv iso).httpStatus = 200 ∧
    (healthHandler me processUptime nodeEnv iso).status = "OK" ∧
    (healthHandler me processUptime nodeEnv iso).uptime = processUptime ∧
    (healthHandler me processUptime nodeEnv iso).systemUptime
        = me.osUptime ∧
    (healthHandler me processUptime nodeEnv iso).hostname = me.hostname ∧
    (healthHandler me processUptime nodeEnv iso).platform = me.platform ∧
    (healthHandler me processUptime nodeEnv iso).version = "1.0.0" := by
  unfold healthHandler getSystemMetrics
  cases me.df <;> cases me.free <;>
    exact ⟨rfl, rfl, rfl, rfl, rfl, rfl, rfl⟩

/-- C7: `GET /api/deployments/:id` answers HTTP 200 with the same
fixed-shape transcript for every id: the id echoed back, status
`completed`, the hardcoded seven-line log, and duration `4m 32s`; no
stored state is consulted for validation. -/
theorem deployment_log_fixed_shape (id : String) (localeTime : Nat → String)
    (iso : String) (s : ServerState) :
    (deploymentByIdHandler id localeTime iso s).httpStatus = 200 ∧
    (deploymentByIdHandler id localeTime iso s).deploymentId = id ∧
    (deploymentByIdHandler id localeTime iso s).status = "completed" ∧
    (deploymentByIdHandler id localeTime iso s).logs
        = deploymentLogLines localeTime ∧
    (deploymentByIdHandler id localeTime iso s).logs.length = 7 ∧
    (deploymentByIdHandler id localeTime iso s).duration = "4m 32s" := by
  exact ⟨rfl, rfl, rfl, rfl, rfl, rfl⟩

/-- C4 counterexample: when the workflow-file listing (`fs.readdir`)
fails, `checkGitHubActions` degrades to safe defaults but its result
carries NO `error` field — the inline `.catch(() => [])` swallows the
failure before the outer catch could attach one — contradicting the
claim that every group's degraded result carries an error field. -/
theorem workflow_group_missing_error_field_cex :
    checkGitHubActions
        (Except.error "ENOENT: no such file or directory, scandir")
      = { active := false, workflows := [], count := 0, error := none } ∧
    (checkGitHubActions
        (Except.error "ENOENT: no such file or directory, scandir")).error
      = none := ⟨rfl, rfl⟩

/-- C4 (amended): every group converts the failure of its underlying
external command into a degraded result with safe defaults instead of
throwing — the container, metrics and cloud groups attach the error
message, while the workflow-listing group silently returns empty
defaults with no error field — and the snapshot merge applies each
group's function to that group's own inputs only, so no group's failure
affects another group's field. -/
theorem group_failures_degrade_locally :
    (∀ (msg : String) (imgs : ExecResult),
      getDockerInfo { ps := Except.error msg, images := imgs }
        = { running := false, containers := [], images := [],
            containerCount := 0, error := some msg }) ∧
    (∀ (out msg : String),
      getDockerInfo { ps := Except.ok out, images := Except.error msg }
        = { running := false, containers := [], images := [],
            containerCount := 0, error := some msg }) ∧
    (∀ (msg : String) (me : MetricsEnv),
      getSystemMetrics { me with df := Except.error msg }
        = { uptime := me.osUptime, hostname := me.hostname,
            platform := me.platform, error := some msg,
            architecture := none, cpuCount := none, totalMemory := none,
            freeMemory := none, loadAverage := none, diskUsage := none,
            memoryInfo := none }) ∧
    (∀ (msg out : String) (me : MetricsEnv),
      getSystemMetrics
          { me with df := Except.ok out, free := Except.error msg }
        = { uptime := me.osUptime, hostname := me.hostname,
            platform := me.platform, error := some msg,
            architecture := none, cpuCount := none, totalMemory := none,
            freeMemory := none, loadAverage := none, diskUsage := none,
            memoryInfo := none }) ∧
    (∀ msg : String,
      checkGitHubActions (Except.error msg)
        = { active := false, workflows := [], count := 0, error := none }) ∧
    (∀ (msg : String) (mo : ExecResult) (reg : Option String),
      checkAWSConnection
          { ipOut := Except.error msg, metaOut := mo, regionEnv := reg }
        = { connected := false, error := some msg, publicIP := "Unknown",
            instanceId := "Unknown", region := none }) ∧
    (∀ (ip msg : String) (reg : Option String),
      checkAWSConnection
          { ipOut := Except.ok ip, metaOut := Except.error msg,
            regionEnv := reg }
        = { connected := false, error := some msg, publicIP := "Unknown",
            instanceId := "Unknown", region := none }) ∧
    (∀ e : Env, buildSnapshot e
        = { docker := getDockerInfo e.docker
            system := getSystemMetrics e.metrics
            github := checkGitHubActions e.readdirWorkflows
            aws := checkAWSConnection e.aws
            lastUpdated := e.nowISO }) := by
  refine ⟨fun msg imgs => rfl, fun out msg => rfl, fun msg me => rfl,
    fun msg out me => rfl, fun msg => rfl, fun msg mo reg => rfl,
    fun ip msg reg => rfl, fun e => rfl⟩

/-- The project deriver never returns an empty list: every `catch` path
returns a singleton and the empty collected list is replaced by the
fallback singleton. -/
theorem one_le_getGitProjects_length (ge : GitEnv)
    (stats : DeploymentStats) : 1 ≤ (getGitProjects ge stats).length := by
  obtain ⟨gs, gb, gl, dk, iso, rf⟩ := ge
  cases gs with
  | error msg => simp [getGitProjects]
  | ok gitStatus =>
  cases gb with
  | error msg => simp [getGitProjects]
  | ok gitBranch =>
  cases gl with
  | error msg => simp [getGitProjects]
  | ok gitLog =>
  simp only [getGitProjects]
  split
  · simp
  · repeat' split
    all_goals simp_all
    all_goals omega

/-- Container-derived project entries keep strictly increasing ids, all
at least `idx + 2` where `idx` is the raw position of the first
processed line. -/
theorem containerProjects_ids (nowISO : String) (rf : Nat → Fin 50) :
    ∀ (lines : List String) (idx : Nat) (ps : List Project),
      containerProjects nowISO rf lines idx = Except.ok ps →
      List.Chain' (fun p q => p.id < q.id) ps ∧ ∀ p ∈ ps, idx + 2 ≤ p.id := by
  intro lines
  induction lines with
  | nil =>
      intro idx ps h
      simp only [containerProjects] at h
      cases h
      exact ⟨List.chain'_nil, by simp⟩
  | cons line rest ih =>
      intro idx ps h
      by_cases hname : (((jsSplitChar line '\t').headD "" != "") &&
          ((jsSplitChar line '\t').headD "" != "NAMES")) = true
      · cases hp : (jsSplitChar line '\t')[1]? with
        | none =>
            simp only [containerProjects, hname, hp, if_true] at h
            cases h
        | some status =>
            cases hr : containerProjects nowISO rf rest (idx + 1) with
            | error e =>
                simp only [containerProjects, hname, hp, hr, if_true] at h
                cases h
            | ok ps' =>
                simp only [containerProjects, hname, hp, hr, if_true] at h
                cases h
                obtain ⟨hch, hbd⟩ := ih (idx + 1) ps' hr
                constructor
                · rw [List.chain'_cons']
                  refine ⟨?_, hch⟩
                  intro y hy
                  have hmem : y ∈ ps' := List.mem_of_mem_head? hy
                  have := hbd y hmem
                  simp only []
                  omega
                · intro p hp2
                  rcases List.mem_cons.mp hp2 with rfl | hmem
                  · simp
                  · have := hbd p hmem
                    omega
      · have hred : containerProjects nowISO rf (line :: rest) idx
            = containerProjects nowISO rf rest (idx + 1) := by
          simp only [containerProjects]
          rw [if_neg hname]
        rw [hred] at h
        obtain ⟨hch, hbd⟩ := ih (idx + 1) ps h
        exact ⟨hch, fun p hp2 => by have := hbd p hp2; omega⟩

/-- C8 counterexample: outside a git repository with one listed
container, the derived list is a single entry with id 2 — the first
entry's id is not 1, so ids are not 1-based. -/
theorem project_ids_not_one_based_cex :
    (getGitProjects soloContainerGitEnv
        { total := 0, successful := 0, failed := 0 }).map Project.id
      = [2] := by decide

/-- C8 (amended): project ids are positional within one call — the
git-repo entry (and the fallback or error singleton) has id 1 and each
container-derived entry has id `raw container position + 2` — so the
list is never empty and ids are strictly increasing, but the list need
not start at id 1 nor be consecutive, and ids have no stability across
calls. -/
theorem project_ids_positional_increasing (ge : GitEnv)
    (stats : DeploymentStats) :
    1 ≤ (getGitProjects ge stats).length ∧
    List.Chain' (fun p q => p.id < q.id) (getGitProjects ge stats) ∧
    ∀ p ∈ getGitProjects ge stats, 1 ≤ p.id := by
  refine ⟨one_le_getGitProjects_length ge stats, ?_⟩
  obtain ⟨gs, gb, gl, dk, iso, rf⟩ := ge
  cases gs with
  | error msg => simp [getGitProjects, errorProject]
  | ok gitStatus =>
  cases gb with
  | error msg => simp [getGitProjects, errorProject]
  | ok gitBranch =>
  cases gl with
  | error msg => simp [getGitProjects, errorProject]
  | ok gitLog =>
  simp only [getGitProjects]
  split
  · simp [errorProject]
  · next cps heq =>
    obtain ⟨hch, hbd⟩ := containerProjects_ids iso rf _ 0 cps heq
    by_cases hgit : (!jsIncludes gitStatus "Not a git repo") = true
    · rw [if_pos hgit]
      rw [if_pos (by simp)]
      constructor
      · rw [List.cons_append, List.nil_append, List.chain'_cons']
        refine ⟨?_, hch⟩
        intro y hy
        have := hbd y (List.mem_of_mem_head? hy)
        show 1 < y.id
        omega
      · intro p hp
        rcases List.mem_cons.mp (by simpa using hp) with rfl | hmem
        · exact le_refl 1
        · have := hbd p hmem
          omega
    · rw [if_neg hgit]
      rw [List.nil_append]
      split
      · exact ⟨hch, fun p hp => by have := hbd p hp; omega⟩
      · simp [fallbackProject]

/-- C6: after a refresh cycle whose container-listing command failed,
`GET /api/system` serves a snapshot with `docker.running = false` and
`docker.containerCount = 0`, and the `projects` list — like every
project-deriver output — has at least one entry. -/
theorem docker_failure_snapshot_and_projects (e : Env) (msg : String)
    (s : ServerState) (ge : GitEnv) (stats : DeploymentStats) :
    systemHandler (step s (Event.refresh (dockerFailEnv e msg)))
        = some (buildSnapshot (dockerFailEnv e msg)) ∧
    (buildSnapshot (dockerFailEnv e msg)).docker.running = false ∧
    (buildSnapshot (dockerFailEnv e msg)).docker.containerCount = 0 ∧
    1 ≤ (step s (Event.refresh (dockerFailEnv e msg))).projects.length ∧
    1 ≤ (getGitProjects ge stats).length := by
  refine ⟨rfl, rfl, rfl, ?_, one_le_getGitProjects_length ge stats⟩
  exact one_le_getGitProjects_length _ _

/-- `systemInfo` keeps its value across any sequence of non-refresh
events. -/
theorem runFrom_systemInfo_of_no_refresh :
    ∀ (evs : List Event), (∀ ev ∈ evs, ev.isRefresh = false) →
      ∀ s : ServerState, (runFrom s evs).systemInfo = s.systemInfo
  | [], _, _ => rfl
  | ev :: evs, h, s => by
      have h1 : ev.isRefresh = false := h ev (List.mem_cons_self ev evs)
      have h2 : ∀ e ∈ evs, Event.isRefresh e = false :=
        fun e he => h e (List.mem_cons_of_mem _ he)
      have hstep : runFrom s (ev :: evs) = runFrom (step s ev) evs := rfl
      rw [hstep, runFrom_systemInfo_of_no_refresh evs h2 (step s ev),
        step_systemInfo_of_not_refresh s ev h1]

/-- C10: before any refresh cycle has committed, `GET /api/system`
serves the initial empty object and `GET /api/status` reports all three
`systemHealth` flags as `false`, because each flag defaults to `false`
when its snapshot field is absent. -/
theorem before_first_refresh_defaults (evs : List Event) (iso : String)
    (h : ∀ ev ∈ evs, ev.isRefresh = false) :
    (run evs).systemInfo = none ∧
    systemHandler (run evs) = none ∧
    (statusHandler (run evs) iso).healthDocker = false ∧
    (statusHandler (run evs) iso).healthGithub = false ∧
    (statusHandler (run evs) iso).healthAws = false := by
  have hsi : (run evs).systemInfo = none :=
    runFrom_systemInfo_of_no_refresh evs h initialState
  exact ⟨hsi, hsi, by simp [statusHandler, hsi], by simp [statusHandler, hsi],
    by simp [statusHandler, hsi]⟩

/-- Witness for C10: a deploy request and a fired timeout before the
first refresh. -/
theorem before_first_refresh_defaults_witness :
    (∀ ev ∈ [Event.deploy (some "app") none 3 true "t", Event.fireTimeout],
        ev.isRefresh = false) ∧
    ((run [Event.deploy (some "app") none 3 true "t",
        Event.fireTimeout]).systemInfo = none ∧
    systemHandler (run [Event.deploy (some "app") none 3 true "t",
        Event.fireTimeout]) = none ∧
    (statusHandler (run [Event.deploy (some "app") none 3 true "t",
        Event.fireTimeout]) "t").healthDocker = false ∧
    (statusHandler (run [Event.deploy (some "app") none 3 true "t",
        Event.fireTimeout]) "t").healthGithub = false ∧
    (statusHandler (run [Event.deploy (some "app") none 3 true "t",
        Event.fireTimeout]) "t").healthAws = false) := by
  have h : ∀ ev ∈ [Event.deploy (some "app") none 3 true "t",
      Event.fireTimeout], ev.isRefresh = false := by
    intro ev hev
    cases hev with
    | head => rfl
    | tail _ hev2 =>
        cases hev2 with
        | head => rfl
        | tail _ hev3 => cases hev3
  exact ⟨h, before_first_refresh_defaults _ "t" h⟩

end AutoDock
